import Mathlib

/-!
Verification development for the checkup video-analysis application.

The repository is a two-panel web application: a browser client
(`src/client/src/App.jsx`) and an Express server with two generations of
controllers: `src/unnamed/part_000` (the `videoController` behind
`/api/video/upload`, `/api/video/analyze`, `/api/video/chat`, using inline
base64 payloads) and `src/backend/src/controllers/aiController.js` (behind
`/api/ai/analyze`, `/api/ai/chat`, using the remote upload-and-poll protocol).

The embedding below translates each handler into a pure Lean function.
External effects are passed in explicitly:
* the uploads directory is a function from filename/path to optional
  contents (or optional byte size where only the size is inspected),
* the generative-AI provider is a function from the generate-content
  request parts to a `ProviderResult`,
* the provider file API (upload / getFile / delete) is a `Gateway` record;
  `getFile` is indexed by the ordinal of the call so that a changing remote
  processing state can be expressed,
* wall-clock timestamps (`new Date()` response fields) are not modelled;
  `Date.now()` and `Math.round(Math.random()*1e9)` in the upload filename
  are passed as explicit `Nat` arguments.
-/

set_option autoImplicit false

namespace Checkup

/-- JS truthiness of an optional string request field: an absent field
(`undefined`) and the empty string are both falsy. -/
def truthy : Option String → Bool
  | none => false
  | some s => !s.isEmpty

/-- A chat-log message as the client stores it and the server receives it:
`{ text, sender }` with `sender ∈ {user, ai, system}` (plus a timestamp,
not modelled). -/
structure ChatMessage where
  sender : String
  text : String
deriving Repr, DecidableEq

/-- An entry of the provider-facing history context: `{ role, parts }`. -/
structure HistoryEntry where
  role : String
  parts : String
deriving Repr, DecidableEq

/-- The role relabelling both controllers apply to a chat message:
`role: msg.sender === 'user' ? 'user' : 'model', parts: msg.text`. -/
def mapMsg (m : ChatMessage) : HistoryEntry :=
  { role := if m.sender = "user" then "user" else "model", parts := m.text }

/-- A media reference inside a generate-content request: either inline
base64 data with a declared mime type, or a remote file handle URI with a
declared mime type. -/
inductive MediaRef where
  | inlineData (data : String) (mimeType : String)
  | fileData (mimeType : String) (fileUri : String)
deriving Repr, DecidableEq

/-- The declared mime type of a media reference. -/
def mediaMime : MediaRef → String
  | .inlineData _ mt => mt
  | .fileData mt _ => mt

/-- One element of the array passed to `model.generateContent([...])`. -/
inductive Part where
  | media (m : MediaRef)
  | text (t : String)
deriving Repr, DecidableEq

/-- Checks that a request part does not declare any mime type other than
`video/mp4` (text parts carry no mime type). -/
def mp4Part : Part → Bool
  | Part.media m => mediaMime m == "video/mp4"
  | Part.text _ => true

/-- Outcome of one `model.generateContent` call as the handlers observe it:
the response text, a response object with no `response` field
(`!result?.response`), or a thrown error. -/
inductive ProviderResult where
  | ok (text : String)
  | noResponse
  | threw (msg : String)
deriving Repr, DecidableEq

/-- The JSON body + HTTP status the AI handlers produce:
`{ success, analysis|response: { text, ... } }` on success and
`{ success: false, error }` on failure. `videoUri` is only populated by
`analyzeVideoContent`. Timestamps are not modelled. -/
structure ApiResponse where
  status : Nat
  success : Bool
  text : Option String
  videoUri : Option String
  errorMsg : Option String
deriving Repr, DecidableEq

/-- A caught error converted to `res.status(500).json({success:false, error})`. -/
def err500 (m : String) : ApiResponse :=
  { status := 500, success := false, text := none, videoUri := none, errorMsg := some m }

/-- A validation failure returned as `res.status(400).json({success:false, error})`. -/
def err400 (m : String) : ApiResponse :=
  { status := 400, success := false, text := none, videoUri := none, errorMsg := some m }

/-! ## videoController (`src/unnamed/part_000`) -/

/-- The multer `fileFilter` allow-list (part_000 line 36). -/
def allowedTypes : List String := ["video/mp4", "video/webm", "video/quicktime"]

/-- The multer `limits.fileSize` ceiling: 25 MiB (part_000 line 32). -/
def maxFileSize : Nat := 25 * 1024 * 1024

/-- The environment the videoController module reads at load time:
`process.env.GEMINI_API_KEY`. The module constructs
`new GoogleGenerativeAI(key)` without validating the key, so no handler in
this controller branches on it. -/
structure VideoEnv where
  geminiApiKey : Option String
deriving Repr, DecidableEq

/-- The multipart file descriptor multer hands to the handler. -/
structure UploadedFile where
  originalname : String
  mimetype : String
  size : Nat
deriving Repr, DecidableEq

/-- The `req.file` subobject echoed back by a successful upload. -/
structure StoredAsset where
  filename : String
  path : String
  size : Nat
  mimetype : String
deriving Repr, DecidableEq

/-- Index of the last `.` in a character list, if any. -/
def lastDotIdx : List Char → Option Nat
  | [] => none
  | c :: rest =>
    match lastDotIdx rest with
    | some i => some (i + 1)
    | none => if c = '.' then some 0 else none

/-- Model of Node `path.extname`: the substring from the last `.` to the
end (including the dot); empty when there is no dot or the only dot is the
leading character. -/
def extname (s : String) : String :=
  match lastDotIdx s.data with
  | none => ""
  | some 0 => ""
  | some i => String.mk (s.data.drop i)

/-- The uploads directory path (relative form of `__dirname/../../uploads`). -/
def uploadsDir : String := "uploads"

/-- Response of `uploadVideo` (part_000 lines 63-78): 200 with the file
descriptor, or 400 with the error message. -/
structure UploadResponse where
  status : Nat
  success : Bool
  file : Option StoredAsset
  errorMsg : Option String
deriving Repr, DecidableEq

/-- Handler `uploadVideo` (part_000 lines 46-80) together with the multer
configuration it awaits (lines 14-43): the `fileFilter` rejects mime
types outside the allow-list before any bytes are stored, `limits`
rejects payloads above 25 MiB, an absent file throws
`No video file uploaded`; otherwise the file is stored under
`Date.now() + '-' + rand + path.extname(originalname)` and echoed back.
Every caught error is returned with status 400. -/
def uploadVideo (_env : VideoEnv) (reqFile : Option UploadedFile) (now rand : Nat) :
    UploadResponse :=
  match reqFile with
  | none => { status := 400, success := false, file := none,
              errorMsg := some "No video file uploaded" }
  | some f =>
    if f.mimetype ∈ allowedTypes then
      if f.size ≤ maxFileSize then
        let fname := toString now ++ "-" ++ toString rand ++ extname f.originalname
        { status := 200, success := true,
          file := some { filename := fname, path := uploadsDir ++ "/" ++ fname,
                         size := f.size, mimetype := f.mimetype },
          errorMsg := none }
      else
        { status := 400, success := false, file := none,
          errorMsg := some "File too large" }
    else
      { status := 400, success := false, file := none,
        errorMsg := some "Only MP4, WebM and MOV video files are allowed" }

/-- Body of `POST /api/video/analyze`. -/
structure AnalyzeRequest where
  filename : Option String
  prompt : Option String
deriving Repr, DecidableEq

/-- The extension-to-mime mapping of part_000 lines 104-107. -/
def videoMimeFromExt (ext : String) : String :=
  if ext = ".mp4" then "video/mp4"
  else if ext = ".webm" then "video/webm"
  else "video/quicktime"

/-- Handler `analyzeVideo` (part_000 lines 83-155). `fs` maps a stored filename to
its base64-encoded contents when the file exists. The second component of
the result is the list of generate-content calls issued to the provider.
Note every caught error is answered with status 500 (line 150). -/
def analyzeVideo (_env : VideoEnv) (fs : String → Option String)
    (provider : List Part → ProviderResult) (req : AnalyzeRequest) :
    ApiResponse × List (List Part) :=
  if !(truthy req.filename && truthy req.prompt) then
    (err500 "Video filename and prompt are required", [])
  else
    let filename := req.filename.getD ""
    match fs filename with
    | none => (err500 "Video file not found", [])
    | some base64Data =>
      let mimeType := videoMimeFromExt (extname filename).toLower
      let parts := [Part.media (MediaRef.inlineData base64Data mimeType),
                    Part.text (req.prompt.getD "")]
      match provider parts with
      | .ok t => ({ status := 200, success := true, text := some t,
                    videoUri := none, errorMsg := none }, [parts])
      | .noResponse => (err500 "No response from AI model", [parts])
      | .threw m => (err500 m, [parts])

/-- The history reduction of `chatWithVideo` (part_000 lines 189-195):
`(chatHistory || []).filter(msg => msg.sender !== 'system').slice(-5).map(...)`.
`slice(-5)` keeps the last five elements, i.e. drops `length - 5`. -/
def recentHistory (chatHistory : List ChatMessage) : List HistoryEntry :=
  let nonSystem := chatHistory.filter (fun msg => decide (msg.sender ≠ "system"))
  (nonSystem.drop (nonSystem.length - 5)).map mapMsg

/-- The instruction appended to the chat question (part_000 line 206). -/
def chatSuffix : String :=
  "\n\nBased on the video content, provide a clear and direct answer."

/-- Body of `POST /api/video/chat`. The client sends `videoUri`, but the
handler destructures only `{ filename, question, chatHistory }`. -/
structure ChatRequest where
  filename : Option String
  videoUri : Option String
  question : Option String
  chatHistory : Option (List ChatMessage)
deriving Repr, DecidableEq

/-- Handler `chatWithVideo` (part_000 lines 158-231). As in the source, the
reduced history `recentHistory` is computed (line 189) but never included
in the generate-content call (lines 198-208), whose inline media part
hard-codes mime type `video/mp4` (line 202). Every caught error is
answered with status 500. -/
def chatWithVideo (_env : VideoEnv) (fs : String → Option String)
    (provider : List Part → ProviderResult) (req : ChatRequest) :
    ApiResponse × List (List Part) :=
  if !(truthy req.filename && truthy req.question) then
    (err500 "Video filename and question are required", [])
  else
    let filename := req.filename.getD ""
    match fs filename with
    | none => (err500 "Video file not found", [])
    | some base64Data =>
      let _recent := recentHistory (req.chatHistory.getD [])
      let parts := [Part.media (MediaRef.inlineData base64Data "video/mp4"),
                    Part.text ((req.question.getD "") ++ chatSuffix)]
      match provider parts with
      | .ok t => ({ status := 200, success := true, text := some t,
                    videoUri := none, errorMsg := none }, [parts])
      | .noResponse => (err500 "No response from AI model", [parts])
      | .threw m => (err500 m, [parts])

/-! ## aiController (`src/backend/src/controllers/aiController.js`) -/

/-- The environment the aiController module reads at load time:
`process.env.GOOGLE_AI_KEY`. -/
structure AiEnv where
  googleAiKey : Option String
deriving Repr, DecidableEq

/-- Module-load initialization (aiController lines 6-17): `genAI` and
`fileManager` are constructed only when `GOOGLE_AI_KEY` is set (and, being
a JS truthiness check, non-empty); otherwise the caught init error leaves
them undefined. -/
def geminiInitialized (env : AiEnv) : Bool := truthy env.googleAiKey

/-- A provider-side file handle as returned by `fileManager.getFile`:
`{ name, uri, mimeType, state }` with `state` a string such as
`PROCESSING` or `ACTIVE`. -/
structure RemoteFile where
  name : String
  uri : String
  mimeType : String
  state : String
deriving Repr, DecidableEq

/-- The provider file API plus generate-content endpoint, as observed by
`analyzeVideoContent`. `uploadFile` receives the declared mime type and
display name; `Except.ok none` models an upload response with no `file`
field. `getFile i` is the result of the i-th `getFile` call (the call
made right after the upload is index 0; the call inside the i-th loop
iteration is index i). -/
structure Gateway where
  uploadFile : String → String → Except String (Option RemoteFile)
  getFile : Nat → RemoteFile
  generate : List Part → ProviderResult
  deleteFile : Except String Unit

/-- The polling attempt ceiling (aiController line 88). -/
def maxAttempts : Nat := 30

/-- The fixed sleep before each in-loop `getFile` (aiController line 91),
in milliseconds. -/
def pollIntervalMs : Nat := 2000

/-- The wait loop of aiController lines 90-95, with `fuel` maintaining
`attempts + fuel = maxAttempts` so that the guard `attempts < maxAttempts`
is `fuel > 0`. Each iteration sleeps `pollIntervalMs`, refetches the file
and increments `attempts`; the returned `Nat` is the final `attempts`,
i.e. the number of in-loop polls. -/
def pollGo (g : Nat → RemoteFile) : RemoteFile → Nat → Nat → RemoteFile × Nat
  | f, att, 0 => (f, att)
  | f, att, fuel + 1 =>
    if f.state = "PROCESSING" then pollGo g (g (att + 1)) (att + 1) fuel
    else (f, att)

/-- The whole wait phase: the initial `getFile` (aiController line 86)
followed by the loop with `attempts = 0` and the full `maxAttempts`
budget. -/
def pollFile (g : Nat → RemoteFile) : RemoteFile × Nat :=
  pollGo g (g 0) 0 maxAttempts

/-- Model of Node `path.basename`: the component after the last `/`. -/
def basename (s : String) : String :=
  match (s.split (fun c => c = '/')).getLast? with
  | some b => b
  | none => s

/-- The extension-to-mime mapping of aiController lines 54-59 (defaulting
to mp4). -/
def aiVideoMimeFromExt (ext : String) : String :=
  if ext = ".mp4" then "video/mp4"
  else if ext = ".webm" then "video/webm"
  else if ext = ".mov" then "video/quicktime"
  else if ext = ".avi" then "video/x-msvideo"
  else "video/mp4"

/-- The fixed analysis prompt of aiController lines 113-121. -/
def analysisPrompt : String :=
  "Analyze this video and provide:\n" ++
  "      1. A brief summary of what the video shows (2-3 sentences)\n" ++
  "      2. Main topics or subjects covered (bullet points)\n" ++
  "      3. Key moments with timestamps in MM:SS format (chronological order)\n" ++
  "      4. Any technical concepts or important details mentioned\n" ++
  "      5. Notable visual elements or scenes described\n\n" ++
  "      Format the response in a clear, structured way with headings.\n" ++
  "      Be specific and detailed but concise."

/-- Body of `POST /api/ai/analyze`. -/
structure AiAnalyzeRequest where
  videoPath : Option String
deriving Repr, DecidableEq

/-- Observable outcome of one `analyzeVideoContent` request: the HTTP
response plus the interactions performed against the provider — upload
calls (mime type, display name), the number of in-loop polls and the
total time slept (2000 ms per poll), generate-content calls, and warnings
written by `console.warn`. -/
structure AiAnalyzeOutcome where
  response : ApiResponse
  polls : Nat
  sleptMs : Nat
  uploadCalls : List (String × String)
  generateCalls : List (List Part)
  warnings : List String
deriving Repr, DecidableEq

/-- An outcome that never reached the provider. -/
def noProviderOutcome (r : ApiResponse) : AiAnalyzeOutcome :=
  { response := r, polls := 0, sleptMs := 0, uploadCalls := [],
    generateCalls := [], warnings := [] }

/-- Handler `analyzeVideoContent` (aiController lines 19-170). `fs` maps a path to
the byte size of the file when it exists. Validation failures are
returned with status 400 before the inner try-block; errors thrown inside
the provider interaction are wrapped as `Gemini API Error: ...` and
returned with status 500; a failed `deleteFile` only appends a warning
(lines 140-146) and the success response is sent regardless. -/
def analyzeVideoContent (env : AiEnv) (fs : String → Option Nat) (gw : Gateway)
    (req : AiAnalyzeRequest) : AiAnalyzeOutcome :=
  if !(geminiInitialized env) then
    noProviderOutcome (err500 "Gemini API not properly initialized")
  else if !(truthy req.videoPath) then
    noProviderOutcome (err400 "Video path is required")
  else
    let videoPath := req.videoPath.getD ""
    match fs videoPath with
    | none => noProviderOutcome (err400 "Video file not found or not accessible")
    | some size =>
      if size = 0 then
        noProviderOutcome (err400 "Video file is empty")
      else
        let mimeType := aiVideoMimeFromExt (extname videoPath).toLower
        let up := (mimeType, basename videoPath)
        match gw.uploadFile mimeType (basename videoPath) with
        | .error e =>
          { response := err500 ("Gemini API Error: " ++ e), polls := 0, sleptMs := 0,
            uploadCalls := [up], generateCalls := [], warnings := [] }
        | .ok none =>
          { response := err500 "Gemini API Error: Failed to get upload response from Gemini",
            polls := 0, sleptMs := 0, uploadCalls := [up], generateCalls := [],
            warnings := [] }
        | .ok (some _uploaded) =>
          let pr := pollFile gw.getFile
          let file := pr.1
          let polls := pr.2
          let slept := pollIntervalMs * polls
          if file.state ≠ "ACTIVE" then
            { response := err500 ("Gemini API Error: Video processing failed - State: " ++ file.state),
              polls := polls, sleptMs := slept, uploadCalls := [up],
              generateCalls := [], warnings := [] }
          else
            let parts := [Part.media (MediaRef.fileData file.mimeType file.uri),
                          Part.text analysisPrompt]
            match gw.generate parts with
            | .threw m =>
              { response := err500 ("Gemini API Error: " ++ m), polls := polls,
                sleptMs := slept, uploadCalls := [up], generateCalls := [parts],
                warnings := [] }
            | .noResponse =>
              { response := err500 "Gemini API Error: No response from Gemini API",
                polls := polls, sleptMs := slept, uploadCalls := [up],
                generateCalls := [parts], warnings := [] }
            | .ok text =>
              let warns := match gw.deleteFile with
                | .ok _ => []
                | .error _ => ["Failed to clean up file"]
              { response := { status := 200, success := true, text := some text,
                              videoUri := some file.uri, errorMsg := none },
                polls := polls, sleptMs := slept, uploadCalls := [up],
                generateCalls := [parts], warnings := warns }

/-- Body of `POST /api/ai/chat`. -/
structure AiChatRequest where
  question : Option String
  videoUri : Option String
  chatHistory : Option (List ChatMessage)
deriving Repr, DecidableEq

/-- The history formatting of `generateResponse` (aiController lines
210-213): `chatHistory?.map(msg => ({role, parts})) || []` — every entry
is relabelled, nothing is filtered out and nothing is truncated. -/
def formattedHistory (chatHistory : Option (List ChatMessage)) : List HistoryEntry :=
  (chatHistory.map (fun l => l.map mapMsg)).getD []

/-- The chat prompt template of aiController lines 216-227, with the
formatted history rendered as `role: parts` lines. -/
def aiChatPrompt (question : String) (hist : List HistoryEntry) : String :=
  "Based on the video content, answer this question: " ++ question ++
  "\n\n      Consider:\n" ++
  "      - If a timestamp (MM:SS) is mentioned, focus on that specific moment\n" ++
  "      - For technical questions, provide clear, detailed explanations\n" ++
  "      - For visual questions, describe what is shown in detail\n" ++
  "      - For summaries, focus on key points and maintain context\n" ++
  "      \n      Previous conversation:\n      " ++
  String.intercalate "\n" (hist.map (fun m => m.role ++ ": " ++ m.parts)) ++
  "\n\n      Provide a clear, direct answer that specifically addresses the question."

/-- Handler `generateResponse` (aiController lines 172-267). The generate-content
call references the remote file by `videoUri` with a hard-coded
`video/mp4` mime type (lines 229-237) and embeds the full formatted
history in the text prompt. -/
def generateResponse (env : AiEnv) (provider : List Part → ProviderResult)
    (req : AiChatRequest) : ApiResponse × List (List Part) :=
  if !(geminiInitialized env) then
    (err500 "Gemini API not properly initialized", [])
  else if !(truthy req.videoUri) then
    (err400 "Video URI is required", [])
  else if !(truthy req.question) then
    (err400 "Question is required", [])
  else
    let hist := formattedHistory req.chatHistory
    let parts := [Part.media (MediaRef.fileData "video/mp4" (req.videoUri.getD "")),
                  Part.text (aiChatPrompt (req.question.getD "") hist)]
    match provider parts with
    | .ok t => ({ status := 200, success := true, text := some t,
                  videoUri := none, errorMsg := none }, [parts])
    | .noResponse => (err500 "Gemini API Error: No response from Gemini API", [parts])
    | .threw m => (err500 ("Gemini API Error: " ++ m), [parts])

/-! ## Client (`src/client/src/App.jsx`) -/

/-- A dynamically-typed JSON/JS value as the client manipulates the parsed
response body. `undef` is JS `undefined` (e.g. an absent object field). -/
inductive JsVal where
  | undefined
  | jsNull
  | bool (b : Bool)
  | num (n : Nat)
  | str (s : String)
  | obj (fields : List (String × JsVal))
deriving Repr

/-- JS property access `v[k]`: an absent field of an object is `undefined`;
reading a property of `undefined` or `null` throws a `TypeError`. -/
def JsVal.get : JsVal → String → Except String JsVal
  | .obj fields, k =>
    .ok (match fields.lookup k with
         | some v => v
         | none => .undefined)
  | .undefined, k => .error ("Cannot read properties of undefined (reading " ++ k ++ ")")
  | .jsNull, k => .error ("Cannot read properties of null (reading " ++ k ++ ")")
  | _, _ => .ok .undefined

/-- JS truthiness of a dynamic value. -/
def JsVal.truthy : JsVal → Bool
  | .undefined => false
  | .jsNull => false
  | .bool b => b
  | .num n => n != 0
  | .str s => !s.isEmpty
  | .obj _ => true

/-- String rendering of a dynamic value where the client puts it into a
message text. -/
def jsDisplay : JsVal → String
  | .str s => s
  | .undefined => "undefined"
  | .jsNull => "null"
  | .bool b => toString b
  | .num n => toString n
  | .obj _ => "[object Object]"

/-- The JSON body `uploadVideo` actually serializes (part_000 lines 63-71
on success, lines 75-78 on failure). -/
def UploadResponse.json (r : UploadResponse) : JsVal :=
  match r.file with
  | some a =>
    .obj [("success", .bool r.success),
          ("file", .obj [("filename", .str a.filename), ("path", .str a.path),
                         ("size", .num a.size), ("mimetype", .str a.mimetype)])]
  | none => .obj [("success", .bool r.success), ("error", .str (r.errorMsg.getD ""))]

/-- A message in the client chat log. -/
structure ClientMessage where
  text : String
  sender : String
deriving Repr, DecidableEq

/-- The client state touched by `handleVideoUpload`: the chat log and the
selected-video object URL. -/
structure ClientState where
  messages : List ClientMessage
  selectedVideo : Option String
deriving Repr, DecidableEq

/-- Model of `x || dflt` for a thrown error payload. -/
def jsErrOrDefault (v : JsVal) (dflt : String) : String :=
  if v.truthy then jsDisplay v else dflt

/-- Client handler `handleVideoUpload` (App.jsx lines 30-102), from the fetch response
(`respOk` is `response.ok`, `data` the parsed JSON body) to the resulting
client state. The try-block throws on a non-ok response, on
`data.success` falsy, and on the property chain `data.file.analysis.text`
(line 82); the catch-block replaces the chat log with a single system
error entry and resets the selected video to `null` (lines 88-95),
overriding the `setSelectedVideo(URL.createObjectURL(file))` performed
earlier in the try-block. -/
def handleVideoUpload (respOk : Bool) (data : JsVal) (objectUrl : String) :
    ClientState :=
  let attempt : Except String String := do
    if !respOk then
      let e ← data.get "error"
      Except.error (jsErrOrDefault e "Upload failed")
    else
      let s ← data.get "success"
      if !(JsVal.truthy s) then
        let e ← data.get "error"
        Except.error (jsErrOrDefault e "Upload failed")
      else
        let f ← data.get "file"
        let a ← f.get "analysis"
        let t ← a.get "text"
        Except.ok (jsDisplay t)
  match attempt with
  | .ok analysisText =>
    { messages := [{ text := "✨ Video uploaded successfully!", sender := "system" },
                   { text := analysisText, sender := "ai" }],
      selectedVideo := some objectUrl }
  | .error msg =>
    { messages := [{ text := "❌ " ++ msg, sender := "system" }],
      selectedVideo := none }

/-! ## Concrete fixtures used by witnesses and counterexamples -/

/-- An environment with a configured provider key. -/
def envOk : AiEnv := { googleAiKey := some "test-key" }

/-- An environment with `GOOGLE_AI_KEY` absent. -/
def envNoKey : AiEnv := { googleAiKey := none }

/-- A videoController environment with `GEMINI_API_KEY` absent. -/
def videoEnvNoKey : VideoEnv := { geminiApiKey := none }

/-- A provider stub that always answers with a fixed text. -/
def provOk : List Part → ProviderResult := fun _ => ProviderResult.ok "A cat runs."

/-- A provider stub that throws the authentication failure a request made
with an absent API key produces. -/
def provAuthFail : List Part → ProviderResult :=
  fun _ => ProviderResult.threw "API key not valid. Please pass a valid API key."

/-- A one-file uploads directory. -/
def fsWith (name contents : String) : String → Option String :=
  fun n => if n = name then some contents else none

/-- An empty uploads directory. -/
def fsEmpty : String → Option String := fun _ => none

/-- A size-only filesystem with a single file. -/
def fsSize (p : String) (sz : Nat) : String → Option Nat :=
  fun q => if q = p then some sz else none

/-- A remote file handle still in processing state. -/
def remoteA : RemoteFile :=
  { name := "files/abc", uri := "uri-abc", mimeType := "video/mp4", state := "PROCESSING" }

/-- A gateway whose upload succeeds, with the given state sequence,
generate behaviour and delete outcome. -/
def gwOf (g : Nat → RemoteFile) (gen : List Part → ProviderResult)
    (del : Except String Unit) : Gateway :=
  { uploadFile := fun _ _ => Except.ok (some remoteA), getFile := g,
    generate := gen, deleteFile := del }

/-- A valid `/api/ai/analyze` request for the fixture filesystem `fsA`. -/
def reqA : AiAnalyzeRequest := { videoPath := some "uploads/v.mp4" }

/-- A filesystem holding the fixture video (size 1024 bytes). -/
def fsA : String → Option Nat := fsSize "uploads/v.mp4" 1024

/-- A remote state sequence that never leaves `PROCESSING`. -/
def gProc : Nat → RemoteFile := fun _ => remoteA

/-- A remote state sequence that is `PROCESSING` on fetches 0, 1, 2 and
`ACTIVE` from fetch 3 on. -/
def gThree : Nat → RemoteFile :=
  fun i => if i ≤ 2 then remoteA else { remoteA with state := "ACTIVE" }

/-- The scenario history of claim C2: seven user/ai messages and two
system messages. -/
def histC2 : List ChatMessage :=
  [⟨"ai", "m1"⟩, ⟨"user", "m2"⟩, ⟨"system", "s1"⟩, ⟨"ai", "m3"⟩, ⟨"user", "m4"⟩,
   ⟨"ai", "m5"⟩, ⟨"system", "s2"⟩, ⟨"user", "m6"⟩, ⟨"ai", "m7"⟩]

/-- A valid `/api/video/chat` request against `fsC4`. -/
def reqC4 : ChatRequest :=
  { filename := some "v.mp4", videoUri := none, question := some "What happens?",
    chatHistory := none }

/-- The uploads directory for the C4 counterexample. -/
def fsC4 : String → Option String := fsWith "v.mp4" "AAAA"

/-! ## Helper lemmas -/

/-- One unrolling step of the wait loop. -/
theorem pollGo_succ (g : Nat → RemoteFile) (f : RemoteFile) (att fuel : Nat) :
    pollGo g f att (fuel + 1) =
      if f.state = "PROCESSING" then pollGo g (g (att + 1)) (att + 1) fuel
      else (f, att) := rfl

/-- When the remote state never leaves `PROCESSING`, the loop consumes its
entire budget. -/
theorem pollGo_all_processing (g : Nat → RemoteFile)
    (hp : ∀ i, (g i).state = "PROCESSING") :
    ∀ fuel att, pollGo g (g att) att fuel = (g (att + fuel), att + fuel) := by
  intro fuel
  induction fuel with
  | zero => intro att; simp [pollGo]
  | succ n ih =>
    intro att
    rw [pollGo_succ, if_pos (hp att), ih (att + 1)]
    have e : att + 1 + n = att + (n + 1) := by omega
    rw [e]

/-- A handle that never leaves `PROCESSING` is polled exactly
`maxAttempts = 30` times. -/
theorem pollFile_timeout (g : Nat → RemoteFile)
    (hp : ∀ i, (g i).state = "PROCESSING") :
    pollFile g = (g 30, 30) := by
  have h := pollGo_all_processing g hp 30 0
  simpa [pollFile, maxAttempts] using h

/-- A handle that is `PROCESSING` on fetches 0-2 and `ACTIVE` on fetch 3
exits the loop after exactly 3 polls. -/
theorem pollFile_three (g : Nat → RemoteFile)
    (h0 : (g 0).state = "PROCESSING") (h1 : (g 1).state = "PROCESSING")
    (h2 : (g 2).state = "PROCESSING") (h3 : (g 3).state = "ACTIVE") :
    pollFile g = (g 3, 3) := by
  have e30 : pollFile g = pollGo g (g 0) 0 (29 + 1) := rfl
  rw [e30, pollGo_succ, if_pos h0]
  have e29 : pollGo g (g 1) 1 29 = pollGo g (g 1) 1 (28 + 1) := rfl
  rw [e29, pollGo_succ, if_pos h1]
  have e28 : pollGo g (g 2) 2 28 = pollGo g (g 2) 2 (27 + 1) := rfl
  rw [e28, pollGo_succ, if_pos h2]
  have e27 : pollGo g (g 3) 3 27 = pollGo g (g 3) 3 (26 + 1) := rfl
  rw [e27, pollGo_succ, if_neg (by rw [h3]; decide)]

/-- A present, non-empty string request field is truthy. -/
theorem truthy_some (s : String) (h : s ≠ "") : truthy (some s) = true := by
  have he : s.isEmpty = false := by
    rw [Bool.eq_false_iff]
    intro hb
    exact h ((String.isEmpty_iff s).mp hb)
  simp [truthy, he]

/-- Evaluation of `chatWithVideo` on a request failing the field validation. -/
theorem chatWithVideo_invalid (venv : VideoEnv) (fs : String → Option String)
    (prov : List Part → ProviderResult) (req : ChatRequest)
    (h : (truthy req.filename && truthy req.question) = false) :
    chatWithVideo venv fs prov req =
      (err500 "Video filename and question are required", []) := by
  simp [chatWithVideo, h]

/-- Evaluation of `chatWithVideo` on a request naming an absent file. -/
theorem chatWithVideo_notFound (venv : VideoEnv) (fs : String → Option String)
    (prov : List Part → ProviderResult) (req : ChatRequest)
    (hf : truthy req.filename = true) (hq : truthy req.question = true)
    (hfs : fs (req.filename.getD "") = none) :
    chatWithVideo venv fs prov req = (err500 "Video file not found", []) := by
  simp [chatWithVideo, hf, hq, hfs]

/-- Evaluation of `chatWithVideo` on a valid request whose provider call succeeds. -/
theorem chatWithVideo_ok (venv : VideoEnv) (fs : String → Option String)
    (prov : List Part → ProviderResult) (req : ChatRequest) (b t : String)
    (hf : truthy req.filename = true) (hq : truthy req.question = true)
    (hfs : fs (req.filename.getD "") = some b)
    (hp : prov [Part.media (MediaRef.inlineData b "video/mp4"),
                Part.text ((req.question.getD "") ++ chatSuffix)] = ProviderResult.ok t) :
    chatWithVideo venv fs prov req =
      ({ status := 200, success := true, text := some t, videoUri := none,
         errorMsg := none },
       [[Part.media (MediaRef.inlineData b "video/mp4"),
         Part.text ((req.question.getD "") ++ chatSuffix)]]) := by
  simp [chatWithVideo, hf, hq, hfs, hp]

/-- On any valid request, `chatWithVideo` issues exactly one provider
call, consisting of the inline video and the suffixed question,
independently of the provider outcome. -/
theorem chatWithVideo_calls (venv : VideoEnv) (fs : String → Option String)
    (prov : List Part → ProviderResult) (req : ChatRequest) (b : String)
    (hf : truthy req.filename = true) (hq : truthy req.question = true)
    (hfs : fs (req.filename.getD "") = some b) :
    (chatWithVideo venv fs prov req).2 =
      [[Part.media (MediaRef.inlineData b "video/mp4"),
        Part.text ((req.question.getD "") ++ chatSuffix)]] := by
  simp only [chatWithVideo, hf, hq, hfs, Bool.and_self, Bool.not_true,
    Bool.false_eq_true, if_false]
  split <;> rfl

/-- Evaluation of `analyzeVideo` on a request failing the field validation. -/
theorem analyzeVideo_invalid (venv : VideoEnv) (fs : String → Option String)
    (prov : List Part → ProviderResult) (req : AnalyzeRequest)
    (h : (truthy req.filename && truthy req.prompt) = false) :
    analyzeVideo venv fs prov req =
      (err500 "Video filename and prompt are required", []) := by
  simp [analyzeVideo, h]

/-- Evaluation of `analyzeVideo` on a request naming an absent file. -/
theorem analyzeVideo_notFound (venv : VideoEnv) (fs : String → Option String)
    (prov : List Part → ProviderResult) (req : AnalyzeRequest)
    (hf : truthy req.filename = true) (hp : truthy req.prompt = true)
    (hfs : fs (req.filename.getD "") = none) :
    analyzeVideo venv fs prov req = (err500 "Video file not found", []) := by
  simp [analyzeVideo, hf, hp, hfs]

/-- Evaluation of `generateResponse` without a `videoUri`. -/
theorem generateResponse_noUri (env : AiEnv) (prov : List Part → ProviderResult)
    (req : AiChatRequest) (henv : geminiInitialized env = true)
    (hu : truthy req.videoUri = false) :
    generateResponse env prov req = (err400 "Video URI is required", []) := by
  simp [generateResponse, henv, hu]

/-- Evaluation of `generateResponse` without a `question`. -/
theorem generateResponse_noQuestion (env : AiEnv)
    (prov : List Part → ProviderResult) (req : AiChatRequest)
    (henv : geminiInitialized env = true) (hu : truthy req.videoUri = true)
    (hq : truthy req.question = false) :
    generateResponse env prov req = (err400 "Question is required", []) := by
  simp [generateResponse, henv, hu, hq]

/-- Evaluation of `analyzeVideoContent` without a `videoPath`. -/
theorem analyzeVideoContent_noPath (env : AiEnv) (fs : String → Option Nat)
    (gw : Gateway) (henv : geminiInitialized env = true) :
    analyzeVideoContent env fs gw { videoPath := none } =
      noProviderOutcome (err400 "Video path is required") := by
  simp [analyzeVideoContent, henv, truthy]

/-- Evaluation of `analyzeVideoContent` on an absent file. -/
theorem analyzeVideoContent_notFound (env : AiEnv) (fs : String → Option Nat)
    (gw : Gateway) (p : String) (henv : geminiInitialized env = true)
    (hp : p ≠ "") (hfs : fs p = none) :
    analyzeVideoContent env fs gw { videoPath := some p } =
      noProviderOutcome (err400 "Video file not found or not accessible") := by
  simp [analyzeVideoContent, henv, truthy_some p hp, hfs]

/-- Evaluation of `analyzeVideoContent` on an empty file. -/
theorem analyzeVideoContent_empty (env : AiEnv) (fs : String → Option Nat)
    (gw : Gateway) (p : String) (henv : geminiInitialized env = true)
    (hp : p ≠ "") (hfs : fs p = some 0) :
    analyzeVideoContent env fs gw { videoPath := some p } =
      noProviderOutcome (err400 "Video file is empty") := by
  simp [analyzeVideoContent, henv, truthy_some p hp, hfs]

/-! ## Claims -/

/-- Claim C1: in `analyzeVideoContent` the remote file state is polled on
a fixed 2000 ms interval with an attempt ceiling of 30 (`maxAttempts`).
A "poll" is one iteration of the wait loop — a 2-second sleep followed by
a `getFile` — matching the `attempts` counter of the source; the
`getFile` issued immediately after the upload (index 0) is the pre-loop
check. For a handle that is still processing at the pre-loop check and
whose state on the three successive polls is PROCESSING, PROCESSING,
ACTIVE, the request succeeds (status 200 with the analysis text) after
exactly 3 polls; for a handle that never leaves PROCESSING it fails after
exactly 30 polls with the processing-timeout error
`Video processing failed - State: PROCESSING` (wrapped as a
`Gemini API Error` and returned with status 500). -/
theorem c1_protocol_b_polling (g gP : Nat → RemoteFile) (txt : String)
    (h0 : (g 0).state = "PROCESSING") (h1 : (g 1).state = "PROCESSING")
    (h2 : (g 2).state = "PROCESSING") (h3 : (g 3).state = "ACTIVE")
    (hP : ∀ i, (gP i).state = "PROCESSING") :
    (maxAttempts = 30 ∧ pollIntervalMs = 2000) ∧
    ((analyzeVideoContent envOk fsA (gwOf g (fun _ => ProviderResult.ok txt) (Except.ok ())) reqA).polls = 3 ∧
     (analyzeVideoContent envOk fsA (gwOf g (fun _ => ProviderResult.ok txt) (Except.ok ())) reqA).sleptMs = 6000 ∧
     (analyzeVideoContent envOk fsA (gwOf g (fun _ => ProviderResult.ok txt) (Except.ok ())) reqA).response.status = 200 ∧
     (analyzeVideoContent envOk fsA (gwOf g (fun _ => ProviderResult.ok txt) (Except.ok ())) reqA).response.success = true ∧
     (analyzeVideoContent envOk fsA (gwOf g (fun _ => ProviderResult.ok txt) (Except.ok ())) reqA).response.text = some txt) ∧
    ((analyzeVideoContent envOk fsA (gwOf gP (fun _ => ProviderResult.ok txt) (Except.ok ())) reqA).polls = 30 ∧
     (analyzeVideoContent envOk fsA (gwOf gP (fun _ => ProviderResult.ok txt) (Except.ok ())) reqA).sleptMs = 60000 ∧
     (analyzeVideoContent envOk fsA (gwOf gP (fun _ => ProviderResult.ok txt) (Except.ok ())) reqA).response.status = 500 ∧
     (analyzeVideoContent envOk fsA (gwOf gP (fun _ => ProviderResult.ok txt) (Except.ok ())) reqA).response.success = false ∧
     (analyzeVideoContent envOk fsA (gwOf gP (fun _ => ProviderResult.ok txt) (Except.ok ())) reqA).response.errorMsg =
       some "Gemini API Error: Video processing failed - State: PROCESSING") := by
  have hpf := pollFile_three g h0 h1 h2 h3
  have hpfP := pollFile_timeout gP hP
  refine ⟨⟨rfl, rfl⟩, ?_, ?_⟩
  · simp only [analyzeVideoContent, gwOf, envOk, geminiInitialized, truthy, reqA, fsA, fsSize]
    simp only [hpf]
    simp [h3, pollIntervalMs, show "test-key".isEmpty = false from rfl,
      show "uploads/v.mp4".isEmpty = false from rfl]
  · simp only [analyzeVideoContent, gwOf, envOk, geminiInitialized, truthy, reqA, fsA, fsSize]
    simp only [hpfP]
    simp [hP 30, pollIntervalMs, err500, show "test-key".isEmpty = false from rfl,
      show "uploads/v.mp4".isEmpty = false from rfl]

/-- Witness for C1 at the concrete state sequences `gThree` (ACTIVE from
the third poll on) and `gProc` (never leaves PROCESSING). -/
theorem c1_protocol_b_polling_witness :
    (maxAttempts = 30 ∧ pollIntervalMs = 2000) ∧
    ((analyzeVideoContent envOk fsA (gwOf gThree (fun _ => ProviderResult.ok "A cat runs.") (Except.ok ())) reqA).polls = 3 ∧
     (analyzeVideoContent envOk fsA (gwOf gThree (fun _ => ProviderResult.ok "A cat runs.") (Except.ok ())) reqA).sleptMs = 6000 ∧
     (analyzeVideoContent envOk fsA (gwOf gThree (fun _ => ProviderResult.ok "A cat runs.") (Except.ok ())) reqA).response.status = 200 ∧
     (analyzeVideoContent envOk fsA (gwOf gThree (fun _ => ProviderResult.ok "A cat runs.") (Except.ok ())) reqA).response.success = true ∧
     (analyzeVideoContent envOk fsA (gwOf gThree (fun _ => ProviderResult.ok "A cat runs.") (Except.ok ())) reqA).response.text = some "A cat runs.") ∧
    ((analyzeVideoContent envOk fsA (gwOf gProc (fun _ => ProviderResult.ok "A cat runs.") (Except.ok ())) reqA).polls = 30 ∧
     (analyzeVideoContent envOk fsA (gwOf gProc (fun _ => ProviderResult.ok "A cat runs.") (Except.ok ())) reqA).sleptMs = 60000 ∧
     (analyzeVideoContent envOk fsA (gwOf gProc (fun _ => ProviderResult.ok "A cat runs.") (Except.ok ())) reqA).response.status = 500 ∧
     (analyzeVideoContent envOk fsA (gwOf gProc (fun _ => ProviderResult.ok "A cat runs.") (Except.ok ())) reqA).response.success = false ∧
     (analyzeVideoContent envOk fsA (gwOf gProc (fun _ => ProviderResult.ok "A cat runs.") (Except.ok ())) reqA).response.errorMsg =
       some "Gemini API Error: Video processing failed - State: PROCESSING") :=
  c1_protocol_b_polling gThree gProc "A cat runs."
    (by decide) (by decide) (by decide) (by decide) (fun _ => rfl)

/-- Claim C3: the chat-history reduction of `chatWithVideo` is a pure
function: it is deterministic; its output length is
`min 5 (count of non-system entries)`; it is an order-preserving
selection from the role-relabelled input (a sublist of `map mapMsg`); and
every kept entry derives from a non-system input message, relabelled to
role `user` when the sender is `user` and `model` otherwise. -/
theorem c3_history_reducer_pure (h : List ChatMessage) :
    (∀ h2 : List ChatMessage, h2 = h → recentHistory h2 = recentHistory h) ∧
    (recentHistory h).length =
      min 5 (h.filter (fun m => decide (m.sender ≠ "system"))).length ∧
    List.Sublist (recentHistory h) (h.map mapMsg) ∧
    (∀ e ∈ recentHistory h, ∃ m ∈ h, m.sender ≠ "system" ∧ e = mapMsg m ∧
      e.role = (if m.sender = "user" then "user" else "model")) := by
  refine ⟨fun h2 he => by rw [he], ?_, ?_, ?_⟩
  · simp only [recentHistory, List.length_map, List.length_drop]
    omega
  · exact List.Sublist.map mapMsg
      ((List.drop_sublist _ _).trans (List.filter_sublist _))
  · intro e he
    simp only [recentHistory, List.mem_map] at he
    obtain ⟨m, hm, rfl⟩ := he
    have hm2 : m ∈ h.filter (fun m => decide (m.sender ≠ "system")) :=
      List.mem_of_mem_drop hm
    have hmf := List.mem_filter.mp hm2
    exact ⟨m, hmf.1, by simpa using hmf.2, rfl, rfl⟩

/-- Witness for C3 at the nine-message fixture history. -/
theorem c3_history_reducer_pure_witness :
    recentHistory histC2 = recentHistory histC2 ∧
    (recentHistory histC2).length =
      min 5 (histC2.filter (fun m => decide (m.sender ≠ "system"))).length :=
  ⟨(c3_history_reducer_pure histC2).1 histC2 rfl,
   (c3_history_reducer_pure histC2).2.1⟩

/-- Counterexample to claim C2: on the `/api/ai/chat` path
(`generateResponse`), a chat turn whose history holds seven user/ai
messages and two system messages invokes the provider with a history
context of nine entries — not five — including the entries derived from
the two system messages (relabelled to role `model`). -/
theorem c2_counterexample :
    (generateResponse envOk provOk
      { question := some "q", videoUri := some "uri-v",
        chatHistory := some histC2 }).2 =
      [[Part.media (MediaRef.fileData "video/mp4" "uri-v"),
        Part.text (aiChatPrompt "q" (formattedHistory (some histC2)))]] ∧
    (formattedHistory (some histC2)).length = 9 ∧
    ¬((formattedHistory (some histC2)).length = 5) ∧
    HistoryEntry.mk "model" "s1" ∈ formattedHistory (some histC2) ∧
    HistoryEntry.mk "model" "s2" ∈ formattedHistory (some histC2) := by
  refine ⟨rfl, rfl, by decide, by decide, by decide⟩

/-- Claim C2 as amended: for a chat turn whose `chatHistory` holds seven
user/ai messages and two system messages, the reduction in
`chatWithVideo` does produce a 5-entry context free of system-derived
entries, but that context is never handed to the provider: the
generate-content call of `chatWithVideo` carries only the inline video
and the suffixed question and is independent of the chat history, while
the `/api/ai/chat` path (`generateResponse`) embeds the full 9-entry
relabelled history — system-derived entries included — in its prompt. -/
theorem c2_history_context (env : AiEnv) (henv : geminiInitialized env = true)
    (venv : VideoEnv) (fs : String → Option String)
    (prov prov2 : List Part → ProviderResult)
    (fn q b uri : String) (hfn : fn ≠ "") (hq : q ≠ "") (hfs : fs fn = some b)
    (huri : uri ≠ "") :
    recentHistory histC2 =
      [⟨"model", "m3"⟩, ⟨"user", "m4"⟩, ⟨"model", "m5"⟩, ⟨"user", "m6"⟩,
       ⟨"model", "m7"⟩] ∧
    (chatWithVideo venv fs prov
      { filename := some fn, videoUri := none, question := some q,
        chatHistory := some histC2 }).2 =
      [[Part.media (MediaRef.inlineData b "video/mp4"),
        Part.text (q ++ chatSuffix)]] ∧
    (chatWithVideo venv fs prov
      { filename := some fn, videoUri := none, question := some q,
        chatHistory := some histC2 }).2 =
      (chatWithVideo venv fs prov
        { filename := some fn, videoUri := none, question := some q,
          chatHistory := none }).2 ∧
    (generateResponse env prov2
      { question := some q, videoUri := some uri, chatHistory := some histC2 }).2 =
      [[Part.media (MediaRef.fileData "video/mp4" uri),
        Part.text (aiChatPrompt q (formattedHistory (some histC2)))]] ∧
    (formattedHistory (some histC2)).length = 9 ∧
    HistoryEntry.mk "model" "s1" ∈ formattedHistory (some histC2) := by
  have hf := truthy_some fn hfn
  have hqt := truthy_some q hq
  have hcalls := chatWithVideo_calls venv fs prov
    { filename := some fn, videoUri := none, question := some q,
      chatHistory := some histC2 } b hf hqt (by simpa using hfs)
  have hcalls2 := chatWithVideo_calls venv fs prov
    { filename := some fn, videoUri := none, question := some q,
      chatHistory := none } b hf hqt (by simpa using hfs)
  refine ⟨by decide, by simpa using hcalls, ?_, ?_, rfl, by decide⟩
  · rw [hcalls, hcalls2]
  · simp only [generateResponse, henv, truthy_some uri huri, truthy_some q hq,
      Bool.not_true, Bool.false_eq_true, if_false]
    split <;> rfl

/-- Witness for C2 (amended) at concrete inputs. -/
theorem c2_history_context_witness :
    (chatWithVideo videoEnvNoKey fsC4 provOk
      { filename := some "v.mp4", videoUri := none, question := some "q",
        chatHistory := some histC2 }).2 =
      [[Part.media (MediaRef.inlineData "AAAA" "video/mp4"),
        Part.text ("q" ++ chatSuffix)]] ∧
    (generateResponse envOk provOk
      { question := some "q", videoUri := some "uri-v",
        chatHistory := some histC2 }).2 =
      [[Part.media (MediaRef.fileData "video/mp4" "uri-v"),
        Part.text (aiChatPrompt "q" (formattedHistory (some histC2)))]] ∧
    (formattedHistory (some histC2)).length = 9 :=
  ⟨(c2_history_context envOk rfl videoEnvNoKey fsC4 provOk provOk
      "v.mp4" "q" "AAAA" "uri-v" (by decide) (by decide) rfl (by decide)).2.1,
   (c2_history_context envOk rfl videoEnvNoKey fsC4 provOk provOk
      "v.mp4" "q" "AAAA" "uri-v" (by decide) (by decide) rfl (by decide)).2.2.2.1,
   (c2_history_context envOk rfl videoEnvNoKey fsC4 provOk provOk
      "v.mp4" "q" "AAAA" "uri-v" (by decide) (by decide) rfl (by decide)).2.2.2.2.1⟩

/-- Counterexample to claim C4: with the videoController provider key
(`GEMINI_API_KEY`) absent, a valid `/api/video/chat` request is not
answered with an initialization error — the handler performs no key check
and invokes the provider (here the call fails provider-side with an
authentication error, surfaced as a 500). -/
theorem c4_counterexample :
    (chatWithVideo videoEnvNoKey fsC4 provAuthFail reqC4).1.status = 500 ∧
    (chatWithVideo videoEnvNoKey fsC4 provAuthFail reqC4).1.errorMsg =
      some "API key not valid. Please pass a valid API key." ∧
    ¬((chatWithVideo videoEnvNoKey fsC4 provAuthFail reqC4).1.errorMsg =
      some "Gemini API not properly initialized") ∧
    (chatWithVideo videoEnvNoKey fsC4 provAuthFail reqC4).2.length = 1 :=
  ⟨rfl, rfl, by decide, rfl⟩

/-- Claim C4 as amended: when `GOOGLE_AI_KEY` is absent, the two
aiController endpoints (`/api/ai/analyze`, `/api/ai/chat`) return the
initialization error with no provider interaction; the two
videoController AI endpoints (`/api/video/analyze`, `/api/video/chat`)
perform no key check at all — their behaviour is identical under any
`GEMINI_API_KEY` value, and a valid chat request still issues a provider
call. -/
theorem c4_missing_key_behaviour
    (fsN : String → Option Nat) (gw : Gateway) (req : AiAnalyzeRequest)
    (prov : List Part → ProviderResult) (req2 : AiChatRequest)
    (e1 e2 : VideoEnv) (fs : String → Option String)
    (prov2 : List Part → ProviderResult) (creq : ChatRequest)
    (areq : AnalyzeRequest)
    (fn q b : String) (hfn : fn ≠ "") (hq : q ≠ "") (hb : fs fn = some b) :
    ((analyzeVideoContent envNoKey fsN gw req).response =
        err500 "Gemini API not properly initialized" ∧
      (analyzeVideoContent envNoKey fsN gw req).generateCalls = [] ∧
      (analyzeVideoContent envNoKey fsN gw req).uploadCalls = []) ∧
    ((generateResponse envNoKey prov req2).1 =
        err500 "Gemini API not properly initialized" ∧
      (generateResponse envNoKey prov req2).2 = []) ∧
    chatWithVideo e1 fs prov2 creq = chatWithVideo e2 fs prov2 creq ∧
    analyzeVideo e1 fs prov2 areq = analyzeVideo e2 fs prov2 areq ∧
    (chatWithVideo videoEnvNoKey fs prov2
      { filename := some fn, videoUri := none, question := some q,
        chatHistory := none }).2.length = 1 := by
  refine ⟨⟨rfl, rfl, rfl⟩, ⟨rfl, rfl⟩, rfl, rfl, ?_⟩
  rw [chatWithVideo_calls videoEnvNoKey fs prov2 _ b
    (truthy_some fn hfn) (truthy_some q hq) (by simpa using hb)]
  rfl

/-- Witness for C4 (amended) at concrete inputs. -/
theorem c4_missing_key_behaviour_witness :
    (analyzeVideoContent envNoKey fsA (gwOf gProc provOk (Except.ok ())) reqA).response =
      err500 "Gemini API not properly initialized" ∧
    (generateResponse envNoKey provOk
      { question := some "q", videoUri := some "uri-v", chatHistory := none }).2 = [] ∧
    (chatWithVideo videoEnvNoKey fsC4 provAuthFail
      { filename := some "v.mp4", videoUri := none,
        question := some "What happens?", chatHistory := none }).2.length = 1 :=
  ⟨(c4_missing_key_behaviour fsA (gwOf gProc provOk (Except.ok ())) reqA provOk
      ⟨some "q", some "uri-v", none⟩ videoEnvNoKey ⟨some "key"⟩ fsC4 provAuthFail
      reqC4 ⟨some "v.mp4", some "p"⟩ "v.mp4" "What happens?" "AAAA"
      (by decide) (by decide) rfl).1.1,
   (c4_missing_key_behaviour fsA (gwOf gProc provOk (Except.ok ())) reqA provOk
      ⟨some "q", some "uri-v", none⟩ videoEnvNoKey ⟨some "key"⟩ fsC4 provAuthFail
      reqC4 ⟨some "v.mp4", some "p"⟩ "v.mp4" "What happens?" "AAAA"
      (by decide) (by decide) rfl).2.1.2,
   (c4_missing_key_behaviour fsA (gwOf gProc provOk (Except.ok ())) reqA provOk
      ⟨some "q", some "uri-v", none⟩ videoEnvNoKey ⟨some "key"⟩ fsC4 provAuthFail
      reqC4 ⟨some "v.mp4", some "p"⟩ "v.mp4" "What happens?" "AAAA"
      (by decide) (by decide) rfl).2.2.2.2⟩

/-- Counterexample to claim C5: a `/api/video/analyze` request with the
required `filename` field missing is answered with HTTP status 500, not
the claimed 400. -/
theorem c5_counterexample :
    (analyzeVideo videoEnvNoKey fsEmpty provOk
      { filename := none, prompt := some "Describe this" }).1.status = 500 ∧
    ¬((analyzeVideo videoEnvNoKey fsEmpty provOk
      { filename := none, prompt := some "Describe this" }).1.status = 400) :=
  ⟨rfl, by decide⟩

/-- Claim C5 as amended: bad-input and absent-media failures are returned
with status 400 on `/api/video/upload` (disallowed mimetype) and on the
aiController endpoints (`/api/ai/analyze`: missing `videoPath`, absent
file, empty file; `/api/ai/chat`: missing `videoUri` or `question`), but
the videoController endpoints `/api/video/analyze` and `/api/video/chat`
funnel every thrown error through their catch-all and answer missing
fields and absent files with status 500. -/
theorem c5_error_status_mapping
    (env : AiEnv) (henv : geminiInitialized env = true)
    (fsN fsN2 : String → Option Nat) (gw : Gateway)
    (p p2 : String) (hp : p ≠ "") (hmiss : fsN p = none)
    (hp2 : p2 ≠ "") (hempty : fsN2 p2 = some 0)
    (venv : VideoEnv) (f : UploadedFile) (hbad : f.mimetype ∉ allowedTypes)
    (now rand : Nat)
    (prov : List Part → ProviderResult) (fs : String → Option String)
    (uri q : String) (huri : uri ≠ "") (_hq : q ≠ "")
    (fn pr : String) (hfn : fn ≠ "") (hpr : pr ≠ "") (hnf : fs fn = none) :
    ((uploadVideo venv (some f) now rand).status = 400 ∧
     (uploadVideo venv (some f) now rand).file = none) ∧
    (analyzeVideoContent env fsN gw { videoPath := none }).response.status = 400 ∧
    (analyzeVideoContent env fsN gw { videoPath := some p }).response =
      err400 "Video file not found or not accessible" ∧
    (analyzeVideoContent env fsN2 gw { videoPath := some p2 }).response =
      err400 "Video file is empty" ∧
    (generateResponse env prov
      { question := some q, videoUri := none, chatHistory := none }).1 =
      err400 "Video URI is required" ∧
    (generateResponse env prov
      { question := none, videoUri := some uri, chatHistory := none }).1 =
      err400 "Question is required" ∧
    (analyzeVideo venv fs prov { filename := none, prompt := some pr }).1 =
      err500 "Video filename and prompt are required" ∧
    (analyzeVideo venv fs prov { filename := some fn, prompt := some pr }).1 =
      err500 "Video file not found" ∧
    (chatWithVideo venv fs prov
      { filename := none, videoUri := none, question := some pr,
        chatHistory := none }).1 =
      err500 "Video filename and question are required" ∧
    (chatWithVideo venv fs prov
      { filename := some fn, videoUri := none, question := some pr,
        chatHistory := none }).1 =
      err500 "Video file not found" := by
  refine ⟨⟨?_, ?_⟩, ?_, ?_, ?_, ?_, ?_, ?_, ?_, ?_, ?_⟩
  · simp [uploadVideo, hbad]
  · simp [uploadVideo, hbad]
  · rw [analyzeVideoContent_noPath env fsN gw henv]; rfl
  · rw [analyzeVideoContent_notFound env fsN gw p henv hp hmiss]; rfl
  · rw [analyzeVideoContent_empty env fsN2 gw p2 henv hp2 hempty]; rfl
  · rw [generateResponse_noUri env prov
      { question := some q, videoUri := none, chatHistory := none } henv rfl]
  · rw [generateResponse_noQuestion env prov
      { question := none, videoUri := some uri, chatHistory := none } henv
      (truthy_some uri huri) rfl]
  · rw [analyzeVideo_invalid venv fs prov _ (by simp [truthy])]
  · rw [analyzeVideo_notFound venv fs prov _
      (truthy_some fn hfn) (truthy_some pr hpr) (by simpa using hnf)]
  · rw [chatWithVideo_invalid venv fs prov _ (by simp [truthy])]
  · rw [chatWithVideo_notFound venv fs prov _
      (truthy_some fn hfn) (truthy_some pr hpr) (by simpa using hnf)]

/-- Witness for C5 (amended) at concrete inputs. -/
theorem c5_error_status_mapping_witness :
    ((uploadVideo videoEnvNoKey
        (some { originalname := "notes.txt", mimetype := "text/plain", size := 10 })
        1 2).status = 400 ∧
     (uploadVideo videoEnvNoKey
        (some { originalname := "notes.txt", mimetype := "text/plain", size := 10 })
        1 2).file = none) ∧
    (analyzeVideoContent envOk fsA (gwOf gProc provOk (Except.ok ()))
      { videoPath := none }).response.status = 400 ∧
    (analyzeVideo videoEnvNoKey fsEmpty provOk
      { filename := some "missing.mp4", prompt := some "Describe" }).1 =
      err500 "Video file not found" :=
  ⟨(c5_error_status_mapping envOk rfl fsA (fsSize "uploads/empty.mp4" 0) (gwOf gProc provOk (Except.ok ()))
      "missing.mp4" "uploads/empty.mp4" (by decide) (by decide) (by decide)
      (by decide)
      videoEnvNoKey { originalname := "notes.txt", mimetype := "text/plain", size := 10 }
      (by decide) 1 2 provOk fsEmpty "uri-v" "q" (by decide) (by decide)
      "missing.mp4" "Describe" (by decide) (by decide) rfl).1,
   (c5_error_status_mapping envOk rfl fsA (fsSize "uploads/empty.mp4" 0) (gwOf gProc provOk (Except.ok ()))
      "missing.mp4" "uploads/empty.mp4" (by decide) (by decide) (by decide)
      (by decide)
      videoEnvNoKey { originalname := "notes.txt", mimetype := "text/plain", size := 10 }
      (by decide) 1 2 provOk fsEmpty "uri-v" "q" (by decide) (by decide)
      "missing.mp4" "Describe" (by decide) (by decide) rfl).2.1,
   (c5_error_status_mapping envOk rfl fsA (fsSize "uploads/empty.mp4" 0) (gwOf gProc provOk (Except.ok ()))
      "missing.mp4" "uploads/empty.mp4" (by decide) (by decide) (by decide)
      (by decide)
      videoEnvNoKey { originalname := "notes.txt", mimetype := "text/plain", size := 10 }
      (by decide) 1 2 provOk fsEmpty "uri-v" "q" (by decide) (by decide)
      "missing.mp4" "Describe" (by decide) (by decide) rfl).2.2.2.2.2.2.2.1⟩

/-- Counterexample to claim C6: an allow-listed mimetype alone does not
make `store` succeed — a 25 MiB + 1 byte mp4 upload is rejected by the
multer size limit, so the success half of the claim needs a size bound. -/
theorem c6_counterexample :
    "video/mp4" ∈ allowedTypes ∧
    (uploadVideo videoEnvNoKey
      (some { originalname := "big.mp4", mimetype := "video/mp4",
              size := 26214401 }) 5 7).success = false ∧
    (uploadVideo videoEnvNoKey
      (some { originalname := "big.mp4", mimetype := "video/mp4",
              size := 26214401 }) 5 7).status = 400 ∧
    (uploadVideo videoEnvNoKey
      (some { originalname := "big.mp4", mimetype := "video/mp4",
              size := 26214401 }) 5 7).file = none := by
  refine ⟨by decide, by decide, by decide, by decide⟩

/-- Claim C6 as amended: for every uploaded file whose declared mimetype
is in the allow-list and whose size is within the 25 MiB ceiling, store
succeeds (status 200) and the generated filename ends in the original
file's extension; for every file with any other mimetype, store fails
with the mimetype validation error and no asset is returned. -/
theorem c6_store_mimetype_validation (venv : VideoEnv) (f g : UploadedFile)
    (now rand now2 rand2 : Nat)
    (hf : f.mimetype ∈ allowedTypes) (hsize : f.size ≤ maxFileSize)
    (hg : g.mimetype ∉ allowedTypes) :
    ((uploadVideo venv (some f) now rand).status = 200 ∧
     (uploadVideo venv (some f) now rand).success = true ∧
     ∃ a, (uploadVideo venv (some f) now rand).file = some a ∧
       a.mimetype = f.mimetype ∧ a.size = f.size ∧
       ∃ pre, a.filename = pre ++ extname f.originalname) ∧
    ((uploadVideo venv (some g) now2 rand2).status = 400 ∧
     (uploadVideo venv (some g) now2 rand2).success = false ∧
     (uploadVideo venv (some g) now2 rand2).file = none ∧
     (uploadVideo venv (some g) now2 rand2).errorMsg =
       some "Only MP4, WebM and MOV video files are allowed") := by
  have h1 : uploadVideo venv (some f) now rand =
      { status := 200, success := true,
        file := some { filename := toString now ++ "-" ++ toString rand ++
                         extname f.originalname,
                       path := uploadsDir ++ "/" ++ (toString now ++ "-" ++
                         toString rand ++ extname f.originalname),
                       size := f.size, mimetype := f.mimetype },
        errorMsg := none } := by
    simp [uploadVideo, hf, hsize]
  have h2 : uploadVideo venv (some g) now2 rand2 =
      { status := 400, success := false, file := none,
        errorMsg := some "Only MP4, WebM and MOV video files are allowed" } := by
    simp [uploadVideo, hg]
  rw [h1, h2]
  exact ⟨⟨rfl, rfl, _, rfl, rfl, rfl, toString now ++ "-" ++ toString rand, rfl⟩,
         rfl, rfl, rfl, rfl⟩

/-- Witness for C6 (amended): a 2 MiB mp4 succeeds, a text file fails. -/
theorem c6_store_mimetype_validation_witness :
    (uploadVideo videoEnvNoKey
      (some { originalname := "clip.mp4", mimetype := "video/mp4",
              size := 2097152 }) 1700 42).status = 200 ∧
    (uploadVideo videoEnvNoKey
      (some { originalname := "notes.txt", mimetype := "text/plain",
              size := 10 }) 1 2).errorMsg =
      some "Only MP4, WebM and MOV video files are allowed" :=
  ⟨(c6_store_mimetype_validation videoEnvNoKey
      { originalname := "clip.mp4", mimetype := "video/mp4", size := 2097152 }
      { originalname := "notes.txt", mimetype := "text/plain", size := 10 }
      1700 42 1 2 (by decide) (by decide) (by decide)).1.1,
   (c6_store_mimetype_validation videoEnvNoKey
      { originalname := "clip.mp4", mimetype := "video/mp4", size := 2097152 }
      { originalname := "notes.txt", mimetype := "text/plain", size := 10 }
      1700 42 1 2 (by decide) (by decide) (by decide)).2.2.2.2⟩

/-- Counterexample to claim C7: a `/api/video/chat` request carrying a
`videoUri` (exactly what the repository client sends) but no `filename`
fails the field validation and is answered 500. -/
theorem c7_counterexample :
    (chatWithVideo videoEnvNoKey fsC4 provOk
      { filename := none, videoUri := some "blob:http://localhost:5173/abc",
        question := some "What happens?", chatHistory := some [] }).1.status = 500 ∧
    (chatWithVideo videoEnvNoKey fsC4 provOk
      { filename := none, videoUri := some "blob:http://localhost:5173/abc",
        question := some "What happens?", chatHistory := some [] }).1.success = false ∧
    (chatWithVideo videoEnvNoKey fsC4 provOk
      { filename := none, videoUri := some "blob:http://localhost:5173/abc",
        question := some "What happens?", chatHistory := some [] }).1.errorMsg =
      some "Video filename and question are required" :=
  ⟨rfl, rfl, rfl⟩

/-- Claim C7 as amended: `chatWithVideo` requires `filename` and
`question`; the `videoUri` field is never read (responses are identical
for any `videoUri` value), so a request identified only by `videoUri`
fails validation with 500, while a request carrying the filename of a
stored video and a question succeeds with `{success, response:{text}}`
(the timestamp is not modelled). -/
theorem c7_chat_request_contract (venv : VideoEnv) (fs : String → Option String)
    (prov : List Part → ProviderResult)
    (uri u1 u2 : Option String) (hist : Option (List ChatMessage))
    (q : Option String) (fn qs b t : String)
    (hfn : fn ≠ "") (hqs : qs ≠ "") (hfs : fs fn = some b)
    (hgen : prov [Part.media (MediaRef.inlineData b "video/mp4"),
                  Part.text (qs ++ chatSuffix)] = ProviderResult.ok t) :
    (chatWithVideo venv fs prov
      { filename := none, videoUri := uri, question := q,
        chatHistory := hist }).1 =
      err500 "Video filename and question are required" ∧
    chatWithVideo venv fs prov
      { filename := some fn, videoUri := u1, question := some qs,
        chatHistory := hist } =
      chatWithVideo venv fs prov
        { filename := some fn, videoUri := u2, question := some qs,
          chatHistory := hist } ∧
    (chatWithVideo venv fs prov
      { filename := some fn, videoUri := uri, question := some qs,
        chatHistory := hist }).1 =
      { status := 200, success := true, text := some t, videoUri := none,
        errorMsg := none } := by
  refine ⟨?_, rfl, ?_⟩
  · rw [chatWithVideo_invalid venv fs prov _ (by simp [truthy])]
  · rw [chatWithVideo_ok venv fs prov
      { filename := some fn, videoUri := uri, question := some qs,
        chatHistory := hist } b t
      (truthy_some fn hfn) (truthy_some qs hqs) (by simpa using hfs)
      (by simpa using hgen)]

/-- Witness for C7 (amended) at concrete inputs. -/
theorem c7_chat_request_contract_witness :
    (chatWithVideo videoEnvNoKey fsC4 provOk
      { filename := none, videoUri := some "blob-u", question := some "q",
        chatHistory := none }).1 =
      err500 "Video filename and question are required" ∧
    (chatWithVideo videoEnvNoKey fsC4 provOk
      { filename := some "v.mp4", videoUri := some "blob-u",
        question := some "What happens?", chatHistory := none }).1 =
      { status := 200, success := true, text := some "A cat runs.",
        videoUri := none, errorMsg := none } :=
  ⟨(c7_chat_request_contract videoEnvNoKey fsC4 provOk
      (some "blob-u") none none none (some "q")
      "v.mp4" "What happens?" "AAAA" "A cat runs."
      (by decide) (by decide) rfl rfl).1,
   (c7_chat_request_contract videoEnvNoKey fsC4 provOk
      (some "blob-u") none none none (some "q")
      "v.mp4" "What happens?" "AAAA" "A cat runs."
      (by decide) (by decide) rfl rfl).2.2⟩

/-- Any successful `analyzeVideoContent` run returns status 200 and its
warnings are exactly those produced by the delete outcome. -/
theorem analyzeVideoContent_success_shape (env : AiEnv) (fs : String → Option Nat)
    (upl : String → String → Except String (Option RemoteFile))
    (gf : Nat → RemoteFile) (gen : List Part → ProviderResult)
    (del : Except String Unit) (req : AiAnalyzeRequest)
    (hs : (analyzeVideoContent env fs ⟨upl, gf, gen, del⟩ req).response.success = true) :
    (analyzeVideoContent env fs ⟨upl, gf, gen, del⟩ req).response.status = 200 ∧
    (analyzeVideoContent env fs ⟨upl, gf, gen, del⟩ req).warnings =
      (match del with
       | Except.ok _ => []
       | Except.error _ => ["Failed to clean up file"]) := by
  cases hGI : geminiInitialized env with
  | false => simp [analyzeVideoContent, hGI, noProviderOutcome, err500] at hs
  | true =>
    cases hT : truthy req.videoPath with
    | false => simp [analyzeVideoContent, hGI, hT, noProviderOutcome, err400] at hs
    | true =>
      cases hFS : fs (req.videoPath.getD "") with
      | none => simp [analyzeVideoContent, hGI, hT, hFS, noProviderOutcome, err400] at hs
      | some size =>
        by_cases hsz : size = 0
        · simp [analyzeVideoContent, hGI, hT, hFS, hsz, noProviderOutcome, err400] at hs
        · cases hUP : upl (aiVideoMimeFromExt (extname (req.videoPath.getD "")).toLower)
              (basename (req.videoPath.getD "")) with
          | error e2 => simp [analyzeVideoContent, hGI, hT, hFS, hsz, hUP, err500] at hs
          | ok mu =>
            cases mu with
            | none => simp [analyzeVideoContent, hGI, hT, hFS, hsz, hUP, err500] at hs
            | some u =>
              by_cases hst : (pollFile gf).1.state = "ACTIVE"
              · cases hGEN : gen [Part.media (MediaRef.fileData (pollFile gf).1.mimeType
                    (pollFile gf).1.uri), Part.text analysisPrompt] with
                | ok t =>
                  simp [analyzeVideoContent, hGI, hT, hFS, hsz, hUP, hst, hGEN]
                  cases del <;> rfl
                | noResponse =>
                  simp [analyzeVideoContent, hGI, hT, hFS, hsz, hUP, hst, hGEN, err500] at hs
                | threw m =>
                  simp [analyzeVideoContent, hGI, hT, hFS, hsz, hUP, hst, hGEN, err500] at hs
              · simp [analyzeVideoContent, hGI, hT, hFS, hsz, hUP, hst, err500] at hs

/-- Claim C8: the post-success remote-handle deletion of
`analyzeVideoContent` is best-effort: the HTTP response (status and body)
is identical whether `deleteFile` succeeds or fails, and when the request
succeeds with a failed deletion the failure surfaces only as the logged
warning while the response still carries status 200. -/
theorem c8_cleanup_best_effort (env : AiEnv) (fs : String → Option Nat)
    (gw : Gateway) (req : AiAnalyzeRequest) (e : String) :
    (analyzeVideoContent env fs { gw with deleteFile := Except.error e } req).response =
      (analyzeVideoContent env fs { gw with deleteFile := Except.ok () } req).response ∧
    ((analyzeVideoContent env fs { gw with deleteFile := Except.error e } req).response.success = true →
      (analyzeVideoContent env fs { gw with deleteFile := Except.error e } req).warnings =
        ["Failed to clean up file"] ∧
      (analyzeVideoContent env fs { gw with deleteFile := Except.error e } req).response.status = 200) := by
  obtain ⟨upl, gf, gen, del⟩ := gw
  refine ⟨?_, fun hs => ?_⟩
  · simp only [analyzeVideoContent]
    repeat' split
    all_goals rfl
  · have h := analyzeVideoContent_success_shape env fs upl gf gen (Except.error e) req hs
    exact ⟨h.2, h.1⟩

/-- Witness for C8 at a concrete successful run with a failing delete. -/
theorem c8_cleanup_best_effort_witness :
    (analyzeVideoContent envOk fsA
      { gwOf gThree provOk (Except.ok ()) with deleteFile := Except.error "boom" }
      reqA).warnings = ["Failed to clean up file"] ∧
    (analyzeVideoContent envOk fsA
      { gwOf gThree provOk (Except.ok ()) with deleteFile := Except.error "boom" }
      reqA).response.status = 200 :=
  (c8_cleanup_best_effort envOk fsA (gwOf gThree provOk (Except.ok ())) reqA
    "boom").2 (by decide)

/-- Claim C9: for every upload the server answers with its documented
success body (status 200, `{success:true, file:{filename, path, size,
mimetype}}` — no `analysis` field), yet the client handler dereferences
`data.file.analysis.text`, so the thrown TypeError lands in the catch
block: the chat log is replaced by a single system error entry and the
selected video is reset to `null` — a successful server-side upload is
always surfaced to the user as a failure. -/
theorem c9_upload_success_breaks_client (venv : VideoEnv) (f : UploadedFile)
    (now rand : Nat) (url : String)
    (hf : f.mimetype ∈ allowedTypes) (hsize : f.size ≤ maxFileSize) :
    (uploadVideo venv (some f) now rand).status = 200 ∧
    (uploadVideo venv (some f) now rand).success = true ∧
    handleVideoUpload true (uploadVideo venv (some f) now rand).json url =
      { messages := [{ text := "❌ Cannot read properties of undefined (reading text)",
                       sender := "system" }],
        selectedVideo := none } := by
  have h1 : uploadVideo venv (some f) now rand =
      { status := 200, success := true,
        file := some { filename := toString now ++ "-" ++ toString rand ++
                         extname f.originalname,
                       path := uploadsDir ++ "/" ++ (toString now ++ "-" ++
                         toString rand ++ extname f.originalname),
                       size := f.size, mimetype := f.mimetype },
        errorMsg := none } := by
    simp [uploadVideo, hf, hsize]
  rw [h1]
  exact ⟨rfl, rfl, rfl⟩

/-- Witness for C9 at a concrete 2 MiB mp4 upload. -/
theorem c9_upload_success_breaks_client_witness :
    (uploadVideo videoEnvNoKey
      (some { originalname := "clip.mp4", mimetype := "video/mp4",
              size := 2097152 }) 1700 42).status = 200 ∧
    (uploadVideo videoEnvNoKey
      (some { originalname := "clip.mp4", mimetype := "video/mp4",
              size := 2097152 }) 1700 42).success = true ∧
    handleVideoUpload true
      (uploadVideo videoEnvNoKey
        (some { originalname := "clip.mp4", mimetype := "video/mp4",
                size := 2097152 }) 1700 42).json "blob-url" =
      { messages := [{ text := "❌ Cannot read properties of undefined (reading text)",
                       sender := "system" }],
        selectedVideo := none } :=
  c9_upload_success_breaks_client videoEnvNoKey
    { originalname := "clip.mp4", mimetype := "video/mp4", size := 2097152 }
    1700 42 "blob-url" (by decide) (by decide)

/-- Claim C10: on every chat turn, in both chat paths (`chatWithVideo`
over inline bytes and `generateResponse` over a remote URI), every media
reference inside every generate-content call declares the literal mime
type `video/mp4`, regardless of the stored or remote asset's actual type. -/
theorem c10_chat_mime_always_mp4 (venv : VideoEnv) (fs : String → Option String)
    (prov : List Part → ProviderResult) (creq : ChatRequest)
    (env : AiEnv) (prov2 : List Part → ProviderResult) (areq : AiChatRequest) :
    ((chatWithVideo venv fs prov creq).2.all (fun c => c.all mp4Part)) = true ∧
    ((generateResponse env prov2 areq).2.all (fun c => c.all mp4Part)) = true := by
  constructor
  · simp only [chatWithVideo]
    repeat' split
    all_goals simp [mp4Part, mediaMime]
  · simp only [generateResponse]
    repeat' split
    all_goals simp [mp4Part, mediaMime]

end Checkup
